import Mathlib

/-!
Shallow embedding of the provider-registry core of the openai-gateway worker
(src/index.ts, the KV-backed version): the module-scoped `providersMap` cache,
`initializeProviders` (refresh from the PROVIDER_CONFIG store), the TTL
freshness middleware, the client-key authentication middleware, and the
`languageModels` resolution callback handed to the OpenAI-compat router.

Machine-level conventions of the embedding:
- JavaScript strings are Lean `String`s; `String.split("/")` is modelled by
  `jsSplit` below, which reproduces the JS semantics on a one-character
  separator (including the empty-string and empty-segment cases).
- `undefined` from out-of-range array destructuring is modelled by `Option`.
- The provider factories built by `createGoogleGenerativeAI` are opaque to the
  program except for the configuration captured in them; a factory is
  represented by that configuration (`GoogleClientConfig`), and invoking a
  factory yields a `ModelHandle` recording the configuration together with the
  model-name argument the factory received.
- The JS object `providersMap` is modelled as an association list where a
  property assignment prepends the binding; property lookup takes the first
  (most recent) binding, which matches JS object read-after-write semantics.
-/

/-- JS `str.split(sep)` for a one-character separator, on the character list:
`"".split("/") = [""]`, `"a/b".split("/") = ["a","b"]`,
`"/".split("/") = ["",""]`, `"a//b".split("/") = ["a","","b"]`. -/
def jsSplitAux (c : Char) : List Char → List (List Char)
  | [] => [[]]
  | x :: xs =>
    if x = c then [] :: jsSplitAux c xs
    else
      match jsSplitAux c xs with
      | [] => [[x]]
      | h :: t => (x :: h) :: t

/-- JS `String.prototype.split` with a single-character separator. -/
def jsSplit (c : Char) (s : String) : List String :=
  (jsSplitAux c s.data).map String.mk

/-- The configuration captured inside a factory returned by
`createGoogleGenerativeAI` in `initializeProviders` (src/index.ts lines
112-126): the base URL, the api key, and the value of the outbound
`cf-aig-authorization` header. -/
structure GoogleClientConfig where
  baseURL : String
  apiKey : String
  cfAigAuthorization : String
deriving DecidableEq, Repr

/-- The observable result of invoking a cached factory with a model-name
argument: which configuration the factory was built with and which model-name
argument it received (`none` models the JS `undefined` that the destructuring
`const [provider, modelName] = modelId.split("/")` produces when there is no
second segment). -/
structure ModelHandle where
  config : GoogleClientConfig
  modelName : Option String
deriving DecidableEq, Repr

/-- The module-scoped `providersMap : Record<string, (model) => LanguageModelV1>`.
Each factory is represented by the `GoogleClientConfig` captured in it. -/
abbrev ProvidersMap := List (String × GoogleClientConfig)

/-- The OWN-property part of the JS object read `providersMap[provider]`:
first (most recent) binding wins. `providersMap` is a plain object literal,
so when no own property exists the read continues along the prototype chain
to `Object.prototype`; that inherited part of the access is modelled in
`resolveStep` below. -/
def lookupProvider : ProvidersMap → String → Option GoogleClientConfig
  | [], _ => none
  | (k, v) :: rest, p => if k = p then some v else lookupProvider rest p

/-- JS object property assignment `providers[provider] = clientFactory`:
prepending preserves the read semantics (a later assignment to the same key
shadows the earlier one). -/
def objSet (m : ProvidersMap) (k : String) (v : GoogleClientConfig) : ProvidersMap :=
  (k, v) :: m

/-- Property names a plain object literal inherits from Object.prototype
whose inherited function, when invoked through
`providersMap[provider]?.(modelName)`, returns a non-nullish JS value
(a string for toString/toLocaleString, a boolean for hasOwnProperty,
isPrototypeOf and propertyIsEnumerable — note `false ?? null` keeps `false` —
the object itself for valueOf, and a wrapper object for constructor, which
is the Object function). -/
def protoFunctionResultNames : List String :=
  ["constructor", "hasOwnProperty", "isPrototypeOf", "propertyIsEnumerable",
   "toLocaleString", "toString", "valueOf"]

/-- Inherited Object.prototype function names whose call with one string (or
undefined) argument returns `undefined` (no accessor is installed), which
`?? null` then turns into the same `null` the callback returns for an unknown
provider. -/
def protoUndefinedResultNames : List String :=
  ["__lookupGetter__", "__lookupSetter__"]

/-- Inherited Object.prototype property names for which
`providersMap[provider]?.(modelName)` throws a TypeError: `__defineGetter__`
and `__defineSetter__` are functions that require a callable second argument,
and `__proto__` is an accessor yielding the non-callable Object.prototype, so
the optional call is attempted on a non-function. -/
def protoThrowingNames : List String :=
  ["__defineGetter__", "__defineSetter__", "__proto__"]

/-- All property names a plain object literal inherits from Object.prototype. -/
def objectPrototypeNames : List String :=
  protoFunctionResultNames ++ protoUndefinedResultNames ++ protoThrowingNames

/-- Result of the `languageModels` resolution callback (src/index.ts lines
164-169): `providerNotFound` is the `null` the callback returns, produced by
`providersMap[provider]?.(modelName) ?? null` when the property access gives
`undefined` (no own key and nothing inherited, or an inherited lookupGetter
or lookupSetter call returning `undefined`); `model h` is the handle returned
by invoking a cached factory stored as an own property; `inheritedValue name
arg` is the non-nullish, non-model JS value returned by invoking the function
`name` inherited from Object.prototype with argument `arg`;
`typeErrorThrown name` is the TypeError thrown when the inherited property
`name` cannot be called that way. -/
inductive ResolveResult where
  | providerNotFound
  | model (h : ModelHandle)
  | inheritedValue (name : String) (modelArg : Option String)
  | typeErrorThrown (name : String)
deriving DecidableEq, Repr

/-- The core of the `languageModels` callback after the split: the JS
property access `providersMap[provider]` followed by the optional call with
`modelName` and `?? null`. An own property (a stored factory) shadows the
prototype; otherwise the access continues to Object.prototype, whose members
behave per `protoFunctionResultNames`, `protoUndefinedResultNames` and
`protoThrowingNames`; any other name reads `undefined` and the callback
returns `null`. -/
def resolveStep (providersMap : ProvidersMap) (provider : String)
    (modelName : Option String) : ResolveResult :=
  match lookupProvider providersMap provider with
  | some cfg => ResolveResult.model ⟨cfg, modelName⟩
  | none =>
    if provider ∈ protoFunctionResultNames then
      ResolveResult.inheritedValue provider modelName
    else if provider ∈ protoUndefinedResultNames then
      ResolveResult.providerNotFound
    else if provider ∈ protoThrowingNames then
      ResolveResult.typeErrorThrown provider
    else
      ResolveResult.providerNotFound

/-- The `languageModels` callback of `createOpenAICompat` (src/index.ts lines
164-169):

```
const [provider, modelName] = modelId.split("/");
return providersMap[provider]?.(modelName) ?? null;
```

`modelId.split("/")` never yields an empty array, so `provider` is the first
segment; `modelName` is the second segment when it exists and `undefined`
otherwise. The property access and optional call are `resolveStep`. -/
def languageModels (providersMap : ProvidersMap) (modelId : String) : ResolveResult :=
  let parts := jsSplit '/' modelId
  resolveStep providersMap (parts.headD "") parts[1]?

example : jsSplit '/' "" = [""] := by decide
example : jsSplit '/' "a/b" = ["a", "b"] := by decide
example : jsSplit '/' "p/a/b" = ["p", "a", "b"] := by decide
example : jsSplit '/' "/" = ["", ""] := by decide
example : languageModels [] "x/y" = .providerNotFound := by decide
example :
    languageModels [("p", ⟨"u", "k", "h"⟩)] "p/a/b" = .model ⟨⟨"u", "k", "h"⟩, some "a"⟩ := by
  decide
example : languageModels [("p", ⟨"u", "k", "h"⟩)] "p" = .model ⟨⟨"u", "k", "h"⟩, none⟩ := by
  decide

/-- The `ProviderConfig` interface (src/index.ts lines 70-74): the shape of a
parsed PROVIDER_CONFIG value. -/
structure ProviderConfig where
  provider : String
  apiKeySecretName : String
  gatewayProviderPath : String
deriving DecidableEq, Repr

/-- A raw value stored under a key of the PROVIDER_CONFIG KV namespace, as the
refresh loop observes it: `empty` is the empty string (falsy, so
`if (!raw) continue` skips it), `invalid` is a non-empty string on which
`JSON.parse` throws, `valid cfg` is a string that parses to `cfg`.
`JSON.parse` itself is an opaque external, so the store is modelled as already
classified by it. -/
inductive RawValue where
  | empty
  | invalid
  | valid (cfg : ProviderConfig)
deriving DecidableEq, Repr

/-- The worker environment bindings used by src/index.ts, with the external
collaborators (KV stores, AI gateway, secrets) modelled as functions:
- `configList` is `env.PROVIDER_CONFIG.list()`: either the key names, or an
  error when the listing promise rejects;
- `configGet k` is `env.PROVIDER_CONFIG.get(k)` (`none` = null);
- `gatewayUrls p` is `await gateway.getUrl(p)` for the gateway named
  `env.AI_GATEWAY_NAME` (assumed to resolve);
- `secrets n` is the string binding `env[n]` checked by `hasSecret`
  (src/index.ts lines 77-83): `some s` iff `typeof env[n] === "string"`;
- `aiGatewayToken` is `env.AI_GATEWAY_TOKEN`;
- `clientKeys k` is `env.CLIENT_KEYS.get(k)` (`none` = null). -/
structure Env where
  configList : Except Unit (List String)
  configGet : String → Option RawValue
  gatewayUrls : String → String
  secrets : String → Option String
  aiGatewayToken : String
  clientKeys : String → Option String

/-- The error thrown or rejected inside the `try` block of
`initializeProviders` and caught by its outer `catch`:
`missingSecret name key` is the `Error` thrown at src/index.ts lines 106-110
when `hasSecret(env, cfg.apiKeySecretName)` is false; `configSource` is the
rejection of `env.PROVIDER_CONFIG.list()`. -/
inductive RefreshInitError where
  | missingSecret (secretName : String) (providerKey : String)
  | configSource
deriving DecidableEq, Repr

/-- One console log event emitted by the refresh:
`invalidJson k` is the `console.error` for a JSON.parse failure on key `k`
(line 100); `unsupportedProvider kind` is the `console.warn` of the default
switch case (line 124); `refreshError e` is the `console.error` of the outer
catch (line 132). -/
inductive LogEvent where
  | invalidJson (providerKey : String)
  | unsupportedProvider (kind : String)
  | refreshError (e : RefreshInitError)
deriving DecidableEq, Repr

/-- The body of the `for (const { name: provider } of list.keys)` loop of
`initializeProviders` (src/index.ts lines 93-128), processing the listed keys
in order while accumulating the local `providers` object and the console log.
Per entry: a null or empty raw value is skipped silently; a JSON.parse failure
is logged and skipped; then `await gateway.getUrl(cfg.gatewayProviderPath)`
runs, and a missing secret THROWS (ending the whole loop with an error);
an unsupported `cfg.provider` is logged and skipped; a `"google"` entry
builds `createGoogleGenerativeAI({ baseURL: url + "/v1beta", apiKey,
headers: { "cf-aig-authorization": "Bearer " + env.AI_GATEWAY_TOKEN } })`
and stores it under the KV key name. -/
def processEntries (env : Env) :
    List String → ProvidersMap → List LogEvent →
    List LogEvent × Except RefreshInitError ProvidersMap
  | [], acc, logs => (logs, Except.ok acc)
  | k :: rest, acc, logs =>
    match env.configGet k with
    | none => processEntries env rest acc logs
    | some RawValue.empty => processEntries env rest acc logs
    | some RawValue.invalid =>
        processEntries env rest acc (logs ++ [LogEvent.invalidJson k])
    | some (RawValue.valid cfg) =>
        let url := env.gatewayUrls cfg.gatewayProviderPath
        match env.secrets cfg.apiKeySecretName with
        | none => (logs, Except.error (RefreshInitError.missingSecret cfg.apiKeySecretName k))
        | some apiKey =>
            if cfg.provider = "google" then
              processEntries env rest
                (objSet acc k
                  ⟨url ++ "/v1beta", apiKey, "Bearer " ++ env.aiGatewayToken⟩)
                logs
            else
              processEntries env rest acc (logs ++ [LogEvent.unsupportedProvider cfg.provider])

/-- The module-scoped mutable registry state: `providersMap` and
`providersInitializedAt` (src/index.ts lines 66-67). Timestamps are JS
`Date.now()` values, modelled as integers. -/
structure RegistryState where
  providersMap : ProvidersMap
  providersInitializedAt : Int
deriving DecidableEq, Repr

/-- The function `initializeProviders` (src/index.ts lines 86-135), modulo the awaits: from
the current registry state, produce the state after the refresh together with
the console log. On success the loop result is published and
`providersInitializedAt` is set to `completedAt` (the `Date.now()` evaluated
at line 129, after all awaits); if the listing rejects or the loop throws (a
missing secret), the outer catch logs the error and both `providersMap` and
`providersInitializedAt` are left unchanged. -/
def initProviders (env : Env) (completedAt : Int) (st : RegistryState) :
    RegistryState × List LogEvent :=
  match env.configList with
  | Except.error _ => (st, [LogEvent.refreshError RefreshInitError.configSource])
  | Except.ok keys =>
    match processEntries env keys [] [] with
    | (logs, Except.error e) => (st, logs ++ [LogEvent.refreshError e])
    | (logs, Except.ok providers) => (⟨providers, completedAt⟩, logs)

/-- The constant `CACHE_TTL_MS = 300_000` (src/index.ts line 68). -/
def CACHE_TTL_MS : Int := 300000

/-- The freshness middleware (src/index.ts lines 142-148):

```
const now = Date.now();
if (!providersMap || now - providersInitializedAt > CACHE_TTL_MS) {
  providersMap = await initializeProviders(c.env);
}
```

`providersMap` is always an object (objects are truthy in JS, including the
empty object it is initialized to), so the `!providersMap` disjunct is always
false and the guard reduces to the strict age comparison. Returns the state
after the middleware and whether `initializeProviders` was called. `now` is
the `Date.now()` read at line 143; `completedAt` is the later `Date.now()`
read inside the refresh (line 129). -/
def freshnessMiddleware (env : Env) (now completedAt : Int) (st : RegistryState) :
    RegistryState × Bool :=
  if now - st.providersInitializedAt > CACHE_TTL_MS then
    ((initProviders env completedAt st).1, true)
  else
    (st, false)

/-- An HTTP response produced by the worker, at the granularity the claims
need: the two 403 rejections of the auth middleware (src/index.ts lines
151-162), or the request reaching the mounted OpenAI-compat router, recorded
with the outcome of its `languageModels` resolution. -/
inductive Response where
  | forbiddenMissingAuth
  | forbiddenInvalidKey
  | routed (r : ResolveResult)
deriving DecidableEq, Repr

/-- The authentication middleware (src/index.ts lines 151-162):

```
const authHeader = c.req.header("Authorization");
if (!authHeader) return c.json({ message: "Missing Authorization header" }, 403);
const key = authHeader.split(" ")[1];
const valid = (await c.env.CLIENT_KEYS.get(key)) !== null;
if (!valid) return c.json({ message: "Invalid API key" }, 403);
return next();
```

Returns `some` rejection, or `none` when the request is passed on to `next`.
A header with no second space-separated part leaves `key` undefined, and the
CLIENT_KEYS lookup then finds no allow-listed key, so the request is rejected
as an invalid key. -/
def authCheck (env : Env) (authHeader : Option String) : Option Response :=
  match authHeader with
  | none => some Response.forbiddenMissingAuth
  | some h =>
    match (jsSplit ' ' h)[1]? with
    | none => some Response.forbiddenInvalidKey
    | some key =>
        if (env.clientKeys key).isSome then none
        else some Response.forbiddenInvalidKey

/-- An inbound request, at the granularity the claims need: its Authorization
header and the composite model id the OpenAI-compat router extracts from its
body. -/
structure Request where
  authHeader : Option String
  modelId : String

/-- The outcome of pushing one request through the Hono app (src/index.ts
lines 137-171): the registry state afterwards, whether the freshness
middleware called `initializeProviders`, and the response. -/
structure RequestOutcome where
  state : RegistryState
  refreshed : Bool
  response : Response
deriving DecidableEq, Repr

/-- One request through the Hono app `app` (src/index.ts lines 137-171): the
middlewares run in registration order — the freshness middleware first (lines
142-148), then the authentication middleware (lines 151-162), then the
mounted `aiRouter`, whose `languageModels` callback resolves the composite
model id against the module-scoped `providersMap`. -/
def handleRequest (env : Env) (now completedAt : Int) (st : RegistryState)
    (req : Request) : RequestOutcome :=
  let fm := freshnessMiddleware env now completedAt st
  match authCheck env req.authHeader with
  | some resp => ⟨fm.1, fm.2, resp⟩
  | none => ⟨fm.1, fm.2, Response.routed (languageModels fm.1.providersMap req.modelId)⟩

/-- The shared mutable cells that the freshness middleware of two overlapping
requests contend on, for the concurrency analysis of the TTL guard:
`providersInitializedAt` (read by the guard at line 144, written only at line
129, after the awaits inside `initializeProviders` complete), plus an
instrumentation counter of how many calls to `initializeProviders` have been
started. -/
structure SharedTimerState where
  providersInitializedAt : Int
  refreshesStarted : Nat
deriving DecidableEq, Repr

/-- The synchronous prefix of the freshness middleware for one request
(src/index.ts lines 143-145): read `Date.now()`, test the TTL guard against
the shared `providersInitializedAt`, and if stale, start
`initializeProviders` (which then suspends on its awaits). Returns the shared
state and whether a refresh was started. There is no in-flight flag in the
code: the guard reads only `providersInitializedAt`. -/
def ensureFreshCheck (now : Int) (s : SharedTimerState) : SharedTimerState × Bool :=
  if now - s.providersInitializedAt > CACHE_TTL_MS then
    ({ s with refreshesStarted := s.refreshesStarted + 1 }, true)
  else
    (s, false)

/-- Completion of an in-flight refresh (src/index.ts line 129):
`providersInitializedAt = Date.now()` runs only after the awaits inside
`initializeProviders` have resolved. -/
def refreshComplete (completedAt : Int) (s : SharedTimerState) : SharedTimerState :=
  { s with providersInitializedAt := completedAt }

theorem jsSplitAux_ne_nil (c : Char) (l : List Char) : jsSplitAux c l ≠ [] := by
  induction l with
  | nil => simp [jsSplitAux]
  | cons x xs ih =>
    rw [jsSplitAux]
    split
    · simp
    · split
      · simp
      · simp

theorem jsSplit_ne_nil (c : Char) (s : String) : jsSplit c s ≠ [] := by
  unfold jsSplit
  intro h
  exact jsSplitAux_ne_nil c s.data (List.map_eq_nil_iff.mp h)

theorem jsSplitAux_sep (c : Char) (p m : List Char) (hp : c ∉ p) :
    jsSplitAux c (p ++ c :: m) = p :: jsSplitAux c m := by
  induction p with
  | nil => simp [jsSplitAux]
  | cons x xs ih =>
    have hx : x ≠ c := fun h => hp (h ▸ List.mem_cons_self x xs)
    have hxs : c ∉ xs := fun h => hp (List.mem_cons_of_mem x h)
    rw [List.cons_append, jsSplitAux, if_neg hx, ih hxs]

theorem string_data_append (s t : String) : (s ++ t).data = s.data ++ t.data := rfl

theorem string_mk_data (s : String) : String.mk s.data = s := rfl

theorem jsSplit_sep (p m : String) (hp : '/' ∉ p.data) :
    jsSplit '/' (p ++ "/" ++ m) = p :: jsSplit '/' m := by
  have h1 : (p ++ "/" ++ m).data = p.data ++ '/' :: m.data := by
    rw [string_data_append, string_data_append, List.append_assoc]
    rfl
  unfold jsSplit
  rw [h1, jsSplitAux_sep '/' p.data m.data hp, List.map_cons, string_mk_data]

/-- Resolution of a composite id built as `p ++ "/" ++ m` where the provider
part `p` contains no slash: the property accessed is exactly `p`, and the
call argument is the first slash-separated segment of `m`. -/
theorem languageModels_sep (snap : ProvidersMap) (p m : String) (hp : '/' ∉ p.data) :
    languageModels snap (p ++ "/" ++ m) = resolveStep snap p (jsSplit '/' m).head? := by
  simp only [languageModels]
  rw [jsSplit_sep p m hp]
  cases hl : jsSplit '/' m with
  | nil => exact absurd hl (jsSplit_ne_nil '/' m)
  | cons a t => simp

/-- An own property shadows the prototype: when the provider is a stored key,
the optional call invokes the cached factory. -/
theorem resolveStep_found (snap : ProvidersMap) (prov : String) (arg : Option String)
    (cfg : GoogleClientConfig) (h : lookupProvider snap prov = some cfg) :
    resolveStep snap prov arg = ResolveResult.model ⟨cfg, arg⟩ := by
  unfold resolveStep
  rw [h]

/-- A provider that is neither a stored key nor an inherited Object.prototype
name reads `undefined`, and the callback returns `null`. -/
theorem resolveStep_not_proto (snap : ProvidersMap) (prov : String) (arg : Option String)
    (hnone : lookupProvider snap prov = none)
    (hproto : prov ∉ objectPrototypeNames) :
    resolveStep snap prov arg = ResolveResult.providerNotFound := by
  have hf : prov ∉ protoFunctionResultNames :=
    fun h => hproto (List.mem_append_left _ (List.mem_append_left _ h))
  have hu : prov ∉ protoUndefinedResultNames :=
    fun h => hproto (List.mem_append_left _ (List.mem_append_right _ h))
  have ht : prov ∉ protoThrowingNames :=
    fun h => hproto (List.mem_append_right _ h)
  unfold resolveStep
  rw [hnone, if_neg hf, if_neg hu, if_neg ht]

/-- A provider that is no stored key but names a value-returning
Object.prototype function yields that inherited call result. -/
theorem resolveStep_inherited (snap : ProvidersMap) (prov : String) (arg : Option String)
    (hnone : lookupProvider snap prov = none)
    (hmem : prov ∈ protoFunctionResultNames) :
    resolveStep snap prov arg = ResolveResult.inheritedValue prov arg := by
  unfold resolveStep
  rw [hnone, if_pos hmem]

/-- The PROVIDER_CONFIG descriptor of the google scenario in the spec. -/
def cfgGoogle : ProviderConfig :=
  ⟨"google", "GOOGLE_API_KEY", "google-ai-studio"⟩

/-- Concrete environment for the google scenario: one PROVIDER_CONFIG entry,
the GOOGLE_API_KEY secret set to "abc", the gateway resolving
google-ai-studio to https://gw.example/google-ai-studio, and
AI_GATEWAY_TOKEN = "tok". -/
def envGoogle : Env where
  configList := Except.ok ["google"]
  configGet := fun k => if k = "google" then some (RawValue.valid cfgGoogle) else none
  gatewayUrls := fun p =>
    if p = "google-ai-studio" then "https://gw.example/google-ai-studio" else "unused"
  secrets := fun n => if n = "GOOGLE_API_KEY" then some "abc" else none
  aiGatewayToken := "tok"
  clientKeys := fun _ => none

/-- Concrete environment whose PROVIDER_CONFIG listing rejects (configuration
source unreachable). -/
def envDown : Env where
  configList := Except.error ()
  configGet := fun _ => none
  gatewayUrls := fun _ => "unused"
  secrets := fun _ => none
  aiGatewayToken := "tok"
  clientKeys := fun _ => none

/-- C10: for the descriptor
`{"provider":"google","apiKeySecretName":"GOOGLE_API_KEY","gatewayProviderPath":"google-ai-studio"}`
with secret `GOOGLE_API_KEY="abc"`, gateway URL
`https://gw.example/google-ai-studio` and gateway token `"tok"`, the refresh
builds a factory whose constructed models use base URL
`https://gw.example/google-ai-studio/v1beta`, carry api key `"abc"`, and
attach the token as the outbound `cf-aig-authorization: Bearer tok` header;
resolving `google/gemini-2.0-flash` invokes that factory with
`gemini-2.0-flash`. -/
theorem c10_google_scenario :
    lookupProvider (initProviders envGoogle 1000 ⟨[], 0⟩).1.providersMap "google" =
      some ⟨"https://gw.example/google-ai-studio/v1beta", "abc", "Bearer tok"⟩ ∧
    languageModels (initProviders envGoogle 1000 ⟨[], 0⟩).1.providersMap
        "google/gemini-2.0-flash" =
      ResolveResult.model
        ⟨⟨"https://gw.example/google-ai-studio/v1beta", "abc", "Bearer tok"⟩,
          some "gemini-2.0-flash"⟩ := by
  decide

/-- C7 counterexample: `toString` is not a key of the (empty) snapshot, yet
resolving `toString/m` does not return the `null` ProviderNotFound result:
`providersMap["toString"]` finds the function inherited from
Object.prototype, the optional call invokes it, and its non-null string
result (`[object Object]`) is returned to the router — refuting the claim
that resolution returns the null outcome for EVERY provider string absent
from the snapshot. -/
theorem c7_counterexample :
    lookupProvider [] "toString" = none ∧
    languageModels [] ("toString" ++ "/" ++ "m") =
      ResolveResult.inheritedValue "toString" (some "m") ∧
    languageModels [] ("toString" ++ "/" ++ "m") ≠ ResolveResult.providerNotFound := by
  decide

/-- C7 (amended): for every composite id `p ++ "/" ++ m` whose provider part
`p` (the text before the first slash) is neither a key of the current
snapshot nor one of the property names a plain object inherits from
Object.prototype, resolution returns the `null` ProviderNotFound result, for
every model name `m`; no factory is invoked and no model handle is returned.
For inherited names the access instead reaches Object.prototype: the
inherited function is invoked (a non-null, non-model value, or `undefined`
and hence `null` for the lookupGetter/lookupSetter pair) or a TypeError is
thrown (`__proto__`, `__defineGetter__`, `__defineSetter__`). -/
theorem c7_amended_unknown_provider_not_found
    (snap : ProvidersMap) (p m : String)
    (hp : '/' ∉ p.data)
    (hnone : lookupProvider snap p = none)
    (hproto : p ∉ objectPrototypeNames) :
    languageModels snap (p ++ "/" ++ m) = ResolveResult.providerNotFound := by
  rw [languageModels_sep snap p m hp]
  exact resolveStep_not_proto snap p (jsSplit '/' m).head? hnone hproto

theorem c7_amended_witness :
    ('/' ∉ "mystery".data) ∧
    lookupProvider [("google", ⟨"u", "k", "h"⟩)] "mystery" = none ∧
    ("mystery" ∉ objectPrototypeNames) ∧
    languageModels [("google", ⟨"u", "k", "h"⟩)] ("mystery" ++ "/" ++ "a/b") =
      ResolveResult.providerNotFound :=
  ⟨by decide, by decide, by decide,
    c7_amended_unknown_provider_not_found [("google", ⟨"u", "k", "h"⟩)] "mystery" "a/b"
      (by decide) (by decide) (by decide)⟩

/-- C4: if the PROVIDER_CONFIG listing rejects, `initializeProviders` leaves
the registry state (snapshot and timestamp) unchanged and logs the error, and
a subsequent resolution of a provider already registered in the stale
snapshot still returns a model handle from the cached factory. -/
theorem c4_list_failure_retains_snapshot
    (env : Env) (completedAt : Int) (st : RegistryState)
    (p m : String) (cfg : GoogleClientConfig)
    (hlist : env.configList = Except.error ())
    (hp : '/' ∉ p.data)
    (hreg : lookupProvider st.providersMap p = some cfg) :
    initProviders env completedAt st =
      (st, [LogEvent.refreshError RefreshInitError.configSource]) ∧
    languageModels (initProviders env completedAt st).1.providersMap (p ++ "/" ++ m) =
      ResolveResult.model ⟨cfg, (jsSplit '/' m).head?⟩ := by
  have h1 : initProviders env completedAt st =
      (st, [LogEvent.refreshError RefreshInitError.configSource]) := by
    simp [initProviders, hlist]
  refine ⟨h1, ?_⟩
  rw [h1, languageModels_sep st.providersMap p m hp]
  exact resolveStep_found st.providersMap p (jsSplit '/' m).head? cfg hreg

theorem c4_witness :
    initProviders envDown 5000 ⟨[("google", ⟨"u", "k", "h"⟩)], 0⟩ =
      (⟨[("google", ⟨"u", "k", "h"⟩)], 0⟩,
        [LogEvent.refreshError RefreshInitError.configSource]) ∧
    languageModels
        (initProviders envDown 5000 ⟨[("google", ⟨"u", "k", "h"⟩)], 0⟩).1.providersMap
        ("google" ++ "/" ++ "gemini-2.0-flash") =
      ResolveResult.model ⟨⟨"u", "k", "h"⟩, (jsSplit '/' "gemini-2.0-flash").head?⟩ :=
  c4_list_failure_retains_snapshot envDown 5000 ⟨[("google", ⟨"u", "k", "h"⟩)], 0⟩
    "google" "gemini-2.0-flash" ⟨"u", "k", "h"⟩ rfl (by decide) (by decide)

/-- C5: given three listed configuration entries of which exactly the middle
one has invalid JSON while the other two are valid google descriptors with
their secrets present, the refresh completes (publishing a new snapshot with
the given completion timestamp — no exception propagates), the new snapshot
contains factories for the two valid entries, omits the invalid one, and the
only log entry is the parse-failure log for the invalid key. -/
theorem c5_invalid_json_isolated
    (env : Env) (k1 k2 k3 : String) (cfg1 cfg3 : ProviderConfig) (s1 s3 : String)
    (completedAt : Int) (st : RegistryState)
    (hlist : env.configList = Except.ok [k1, k2, k3])
    (h1 : env.configGet k1 = some (RawValue.valid cfg1))
    (h2 : env.configGet k2 = some RawValue.invalid)
    (h3 : env.configGet k3 = some (RawValue.valid cfg3))
    (hp1 : cfg1.provider = "google") (hp3 : cfg3.provider = "google")
    (hs1 : env.secrets cfg1.apiKeySecretName = some s1)
    (hs3 : env.secrets cfg3.apiKeySecretName = some s3)
    (h21 : k2 ≠ k1) (h23 : k2 ≠ k3) (h31 : k3 ≠ k1) :
    lookupProvider (initProviders env completedAt st).1.providersMap k1 =
      some ⟨env.gatewayUrls cfg1.gatewayProviderPath ++ "/v1beta", s1,
        "Bearer " ++ env.aiGatewayToken⟩ ∧
    lookupProvider (initProviders env completedAt st).1.providersMap k3 =
      some ⟨env.gatewayUrls cfg3.gatewayProviderPath ++ "/v1beta", s3,
        "Bearer " ++ env.aiGatewayToken⟩ ∧
    lookupProvider (initProviders env completedAt st).1.providersMap k2 = none ∧
    (initProviders env completedAt st).1.providersInitializedAt = completedAt ∧
    (initProviders env completedAt st).2 = [LogEvent.invalidJson k2] := by
  have hrun : initProviders env completedAt st =
      (⟨objSet (objSet [] k1
          ⟨env.gatewayUrls cfg1.gatewayProviderPath ++ "/v1beta", s1,
            "Bearer " ++ env.aiGatewayToken⟩) k3
          ⟨env.gatewayUrls cfg3.gatewayProviderPath ++ "/v1beta", s3,
            "Bearer " ++ env.aiGatewayToken⟩, completedAt⟩,
        [LogEvent.invalidJson k2]) := by
    simp [initProviders, hlist, processEntries, h1, h2, h3, hs1, hs3, hp1, hp3]
  rw [hrun]
  refine ⟨?_, ?_, ?_, rfl, rfl⟩
  · simp [objSet, lookupProvider, h31]
  · simp [objSet, lookupProvider]
  · simp only [objSet, lookupProvider]
    rw [if_neg (Ne.symm h23), if_neg (Ne.symm h21)]

/-- Concrete environment with three PROVIDER_CONFIG entries of which the
middle one holds invalid JSON. -/
def envThree : Env where
  configList := Except.ok ["alpha", "broken", "gamma"]
  configGet := fun k =>
    if k = "alpha" then some (RawValue.valid ⟨"google", "ALPHA_KEY", "alpha-path"⟩)
    else if k = "broken" then some RawValue.invalid
    else if k = "gamma" then some (RawValue.valid ⟨"google", "GAMMA_KEY", "gamma-path"⟩)
    else none
  gatewayUrls := fun p => "https://gw.example/" ++ p
  secrets := fun n =>
    if n = "ALPHA_KEY" then some "ka" else if n = "GAMMA_KEY" then some "kc" else none
  aiGatewayToken := "tok"
  clientKeys := fun _ => none

theorem c5_witness :
    lookupProvider (initProviders envThree 77 ⟨[], 0⟩).1.providersMap "alpha" =
      some ⟨envThree.gatewayUrls "alpha-path" ++ "/v1beta", "ka",
        "Bearer " ++ envThree.aiGatewayToken⟩ ∧
    lookupProvider (initProviders envThree 77 ⟨[], 0⟩).1.providersMap "gamma" =
      some ⟨envThree.gatewayUrls "gamma-path" ++ "/v1beta", "kc",
        "Bearer " ++ envThree.aiGatewayToken⟩ ∧
    lookupProvider (initProviders envThree 77 ⟨[], 0⟩).1.providersMap "broken" = none ∧
    (initProviders envThree 77 ⟨[], 0⟩).1.providersInitializedAt = 77 ∧
    (initProviders envThree 77 ⟨[], 0⟩).2 = [LogEvent.invalidJson "broken"] :=
  c5_invalid_json_isolated envThree "alpha" "broken" "gamma"
    ⟨"google", "ALPHA_KEY", "alpha-path"⟩ ⟨"google", "GAMMA_KEY", "gamma-path"⟩
    "ka" "kc" 77 ⟨[], 0⟩ rfl rfl rfl rfl rfl rfl rfl rfl
    (by decide) (by decide) (by decide)

/-- Concrete environment in which the first listed entry is a valid google
descriptor with its secret present, and the second listed entry is a valid
descriptor whose named secret is absent from the environment. -/
def envMissingSecondSecret : Env where
  configList := Except.ok ["good", "bad"]
  configGet := fun k =>
    if k = "good" then some (RawValue.valid ⟨"google", "GOOD_KEY", "good-path"⟩)
    else if k = "bad" then some (RawValue.valid ⟨"google", "BAD_KEY", "bad-path"⟩)
    else none
  gatewayUrls := fun p => "https://gw.example/" ++ p
  secrets := fun n => if n = "GOOD_KEY" then some "kg" else none
  aiGatewayToken := "tok"
  clientKeys := fun _ => none

/-- C1 counterexample: with two configuration entries — `good`, fully valid
and successfully processed first, and `bad`, whose named secret `BAD_KEY` is
absent — the refresh does NOT merely skip `bad`: the missing-secret check
throws, the outer catch logs the error, the new snapshot is never published
(the state keeps the old empty map and timestamp), and in particular the
successfully processed entry `good` does not appear in the resulting map,
contradicting the claim that every other successfully processed entry still
appears in the new snapshot. -/
theorem c1_counterexample :
    (initProviders envMissingSecondSecret 1000 ⟨[], 0⟩).1 = ⟨[], 0⟩ ∧
    lookupProvider (initProviders envMissingSecondSecret 1000 ⟨[], 0⟩).1.providersMap
      "good" = none ∧
    (initProviders envMissingSecondSecret 1000 ⟨[], 0⟩).2 =
      [LogEvent.refreshError (RefreshInitError.missingSecret "BAD_KEY" "bad")] := by
  decide

/-- C1 (amended): when a listed entry parses to a descriptor whose named
secret is absent from the environment, the refresh throws at that entry; the
outer catch logs the missing-secret error and the previous registry state
(snapshot and timestamp) is retained unchanged. Entries after the throwing
one are not processed, and entries processed before it are discarded rather
than published; no exception propagates out of the refresh call (the function
returns normally). Stated here for a missing secret at the first listed
entry; the conclusion is independent of the remaining keys `rest`. -/
theorem c1_amended_missing_secret_aborts
    (env : Env) (k : String) (rest : List String) (cfg : ProviderConfig)
    (completedAt : Int) (st : RegistryState)
    (hlist : env.configList = Except.ok (k :: rest))
    (hget : env.configGet k = some (RawValue.valid cfg))
    (hsec : env.secrets cfg.apiKeySecretName = none) :
    initProviders env completedAt st =
      (st, [LogEvent.refreshError
        (RefreshInitError.missingSecret cfg.apiKeySecretName k)]) := by
  simp [initProviders, hlist, processEntries, hget, hsec]

/-- Concrete environment whose first listed entry names an absent secret. -/
def envMissingFirstSecret : Env where
  configList := Except.ok ["bad", "later"]
  configGet := fun k =>
    if k = "bad" then some (RawValue.valid ⟨"google", "BAD_KEY", "bad-path"⟩) else none
  gatewayUrls := fun p => "https://gw.example/" ++ p
  secrets := fun _ => none
  aiGatewayToken := "tok"
  clientKeys := fun _ => none

theorem c1_amended_witness :
    initProviders envMissingFirstSecret 42 ⟨[("google", ⟨"u", "k", "h"⟩)], 7⟩ =
      (⟨[("google", ⟨"u", "k", "h"⟩)], 7⟩,
        [LogEvent.refreshError (RefreshInitError.missingSecret "BAD_KEY" "bad")]) :=
  c1_amended_missing_secret_aborts envMissingFirstSecret "bad" ["later"]
    ⟨"google", "BAD_KEY", "bad-path"⟩ 42 ⟨[("google", ⟨"u", "k", "h"⟩)], 7⟩
    rfl rfl rfl

/-- C6 counterexample: resolving `p/a/b` against a snapshot registering
provider `p` invokes the factory with model name `a`, not `a/b`: the code
splits the id on every slash and the destructuring keeps only the second
segment, dropping the rest, contrary to the claim that the model name is
everything after the first slash. -/
theorem c6_counterexample :
    languageModels [("p", ⟨"u", "k", "h"⟩)] "p/a/b" =
      ResolveResult.model ⟨⟨"u", "k", "h"⟩, some "a"⟩ ∧
    some ("a" : String) ≠ some ("a/b" : String) := by
  decide

/-- C6 (amended): resolution splits on every `/`, not only the first: the
provider part is the text before the first slash, and the model name passed
to the cached factory is only the second slash-separated segment (the text
between the first and second slash); any further segments are dropped.
Resolving `p/a/b` against a snapshot registering `p` therefore invokes the
factory with model name `a`. -/
theorem c6_amended_second_segment_only
    (snap : ProvidersMap) (p m : String) (cfg : GoogleClientConfig)
    (hp : '/' ∉ p.data)
    (hcfg : lookupProvider snap p = some cfg) :
    languageModels snap (p ++ "/" ++ m) =
      ResolveResult.model ⟨cfg, (jsSplit '/' m).head?⟩ := by
  rw [languageModels_sep snap p m hp]
  exact resolveStep_found snap p (jsSplit '/' m).head? cfg hcfg

theorem c6_amended_witness :
    languageModels [("p", ⟨"u", "k", "h"⟩)] ("p" ++ "/" ++ "a/b") =
      ResolveResult.model ⟨⟨"u", "k", "h"⟩, (jsSplit '/' "a/b").head?⟩ :=
  c6_amended_second_segment_only [("p", ⟨"u", "k", "h"⟩)] "p" "a/b" ⟨"u", "k", "h"⟩
    (by decide) (by decide)

/-- First-separator split on the character list, used only to phrase the
spec-side notion of a malformed composite identifier: `none` when the
separator does not occur, otherwise the parts before and after its first
occurrence. -/
def splitFirstAux (c : Char) : List Char → Option (List Char × List Char)
  | [] => none
  | x :: xs =>
    if x = c then some ([], xs)
    else (splitFirstAux c xs).map (fun q => (x :: q.1, q.2))

/-- Written from the spec wording, for comparison with the code: the spec
splits a composite id on the FIRST `/` into `providerId` and `modelName` and
calls the id malformed when the separator is missing, `providerId` is empty,
or `modelName` is empty. -/
def specMalformedIdentifier (id : String) : Bool :=
  match splitFirstAux '/' id.data with
  | none => true
  | some q => q.1.isEmpty || q.2.isEmpty

/-- C2 counterexample: `gemini` has no separator, so the spec calls it
malformed, yet resolution returns exactly the ProviderNotFound result (the
`null` of `providersMap[provider]?.(modelName) ?? null`): there is no
MalformedIdentifier outcome distinct from ProviderNotFound anywhere in the
resolution path, refuting the claim. -/
theorem c2_counterexample :
    specMalformedIdentifier "gemini" = true ∧
    languageModels [] "gemini" = ResolveResult.providerNotFound := by
  decide

/-- C2 (amended): a composite id that the spec classifies as malformed (a
missing separator, empty provider part, or empty model part) produces no
distinct error: resolution treats it exactly like any other id, through
ordinary JS property access on the provider part (the text before the first
slash, or the whole id without one) — when that part is neither a snapshot
key nor a name inherited from Object.prototype the result is the same
ProviderNotFound `null` as for an unknown provider; when it is a snapshot key
the cached factory is invoked with the second slash-separated segment
(`undefined` when absent); and when it is one of the Object.prototype
function names the inherited function is invoked instead. -/
theorem c2_amended_no_distinct_malformed_error
    (snap : ProvidersMap) (id : String)
    (_hmal : specMalformedIdentifier id = true) :
    ((jsSplit '/' id).headD "" ∉ objectPrototypeNames →
      lookupProvider snap ((jsSplit '/' id).headD "") = none →
      languageModels snap id = ResolveResult.providerNotFound) ∧
    (∀ cfg, lookupProvider snap ((jsSplit '/' id).headD "") = some cfg →
      languageModels snap id = ResolveResult.model ⟨cfg, (jsSplit '/' id)[1]?⟩) ∧
    ((jsSplit '/' id).headD "" ∈ protoFunctionResultNames →
      lookupProvider snap ((jsSplit '/' id).headD "") = none →
      languageModels snap id =
        ResolveResult.inheritedValue ((jsSplit '/' id).headD "")
          (jsSplit '/' id)[1]?) := by
  refine ⟨?_, ?_, ?_⟩
  · intro hproto h
    simp only [languageModels]
    exact resolveStep_not_proto snap ((jsSplit '/' id).headD "") (jsSplit '/' id)[1]?
      h hproto
  · intro cfg h
    simp only [languageModels]
    exact resolveStep_found snap ((jsSplit '/' id).headD "") (jsSplit '/' id)[1]? cfg h
  · intro hmem h
    simp only [languageModels]
    exact resolveStep_inherited snap ((jsSplit '/' id).headD "") (jsSplit '/' id)[1]?
      h hmem

theorem c2_amended_witness :
    specMalformedIdentifier "noslash" = true ∧
    languageModels [] "noslash" = ResolveResult.providerNotFound ∧
    specMalformedIdentifier "p/" = true ∧
    languageModels [("p", ⟨"u", "k", "h"⟩)] "p/" =
      ResolveResult.model ⟨⟨"u", "k", "h"⟩, (jsSplit '/' "p/")[1]?⟩ ∧
    specMalformedIdentifier "toString/" = true ∧
    languageModels [] "toString/" =
      ResolveResult.inheritedValue "toString" (jsSplit '/' "toString/")[1]? :=
  ⟨by decide,
    (c2_amended_no_distinct_malformed_error [] "noslash" (by decide)).1
      (by decide) (by decide),
    by decide,
    (c2_amended_no_distinct_malformed_error [("p", ⟨"u", "k", "h"⟩)] "p/"
      (by decide)).2.1 ⟨"u", "k", "h"⟩ (by decide),
    by decide,
    (c2_amended_no_distinct_malformed_error [] "toString/" (by decide)).2.2
      (by decide) (by decide)⟩

/-- C8 counterexample: with a stale snapshot (age 300001 > TTL) and an absent
Authorization header, the request is rejected with the missing-header 403,
yet the freshness middleware has already run on its behalf: it called
`initializeProviders`, which read the configuration store and published a new
snapshot containing the google factory. The registration order of the
middlewares (freshness at lines 142-148 before auth at lines 151-162) puts
the refresh before the rejection, refuting the claim. -/
theorem c8_counterexample :
    (handleRequest envGoogle 300001 1000 ⟨[], 0⟩ ⟨none, "google/x"⟩).refreshed = true ∧
    (handleRequest envGoogle 300001 1000 ⟨[], 0⟩ ⟨none, "google/x"⟩).response =
      Response.forbiddenMissingAuth ∧
    lookupProvider
        (handleRequest envGoogle 300001 1000 ⟨[], 0⟩ ⟨none, "google/x"⟩).state.providersMap
        "google" =
      some ⟨"https://gw.example/google-ai-studio/v1beta", "abc", "Bearer tok"⟩ := by
  decide

/-- Every rejection produced by the authentication middleware is one of its
two 403 responses. -/
theorem authCheck_rejections (env : Env) (ah : Option String) (resp : Response)
    (h : authCheck env ah = some resp) :
    resp = Response.forbiddenMissingAuth ∨ resp = Response.forbiddenInvalidKey := by
  cases ah with
  | none =>
    simp only [authCheck] at h
    exact Or.inl (Option.some.inj h).symm
  | some s =>
    simp only [authCheck] at h
    cases hk : (jsSplit ' ' s)[1]? with
    | none =>
      simp only [hk] at h
      exact Or.inr (Option.some.inj h).symm
    | some key =>
      simp only [hk] at h
      by_cases hv : (env.clientKeys key).isSome
      · simp [hv] at h
      · simp only [hv, if_false] at h
        exact Or.inr (Option.some.inj h).symm

/-- C8 (amended): a request whose Authorization header is absent or whose
presented key is not in the CLIENT_KEYS store is rejected by the
authentication middleware with the corresponding 403 and never reaches the
model router (its response is never a routed one) — but the rejection happens
AFTER the freshness middleware, which runs first in registration order, so
the freshness check and a possible configuration-store refresh are still
performed on behalf of the rejected request. -/
theorem c8_amended_rejected_after_freshness
    (env : Env) (now completedAt : Int) (st : RegistryState) (req : Request)
    (resp : Response)
    (hauth : authCheck env req.authHeader = some resp) :
    (handleRequest env now completedAt st req).response = resp ∧
    (∀ r, (handleRequest env now completedAt st req).response ≠ Response.routed r) ∧
    (handleRequest env now completedAt st req).refreshed =
      decide (now - st.providersInitializedAt > CACHE_TTL_MS) := by
  unfold handleRequest
  rw [hauth]
  refine ⟨rfl, ?_, ?_⟩
  · intro r hr
    rcases authCheck_rejections env req.authHeader resp hauth with h | h <;>
      simp [h] at hr
  · unfold freshnessMiddleware
    split <;> simp_all

theorem c8_amended_witness :
    (handleRequest envGoogle 300001 1000 ⟨[], 0⟩
        ⟨some "Bearer wrong-key", "google/x"⟩).response =
      Response.forbiddenInvalidKey ∧
    (∀ r, (handleRequest envGoogle 300001 1000 ⟨[], 0⟩
        ⟨some "Bearer wrong-key", "google/x"⟩).response ≠ Response.routed r) ∧
    (handleRequest envGoogle 300001 1000 ⟨[], 0⟩
        ⟨some "Bearer wrong-key", "google/x"⟩).refreshed =
      decide ((300001 : Int) - (0 : Int) > CACHE_TTL_MS) :=
  c8_amended_rejected_after_freshness envGoogle 300001 1000 ⟨[], 0⟩
    ⟨some "Bearer wrong-key", "google/x"⟩ Response.forbiddenInvalidKey (by decide)

/-- C9 counterexample: with the snapshot built at time 0 and a request at
time 300000, the age equals the TTL exactly, yet no refresh is performed: the
guard `now - providersInitializedAt > CACHE_TTL_MS` is strict, refuting the
claim that a refresh is triggered when the age equals the TTL. -/
theorem c9_counterexample :
    (handleRequest envGoogle 300000 300000 ⟨[], 0⟩ ⟨none, "google/x"⟩).refreshed = false ∧
    (handleRequest envGoogle 300000 300000 ⟨[], 0⟩ ⟨none, "google/x"⟩).state =
      ⟨[], 0⟩ := by
  decide

/-- C9 (amended): the per-request freshness check calls
`initializeProviders` exactly when the snapshot age `now -
providersInitializedAt` is STRICTLY greater than `CACHE_TTL_MS` (so no
refresh happens when the age equals the TTL), and when the age is at most the
TTL it performs no refresh and leaves the registry state untouched (no
configuration reads). -/
theorem c9_amended_strict_ttl
    (env : Env) (now completedAt : Int) (st : RegistryState) (req : Request) :
    (handleRequest env now completedAt st req).refreshed =
      decide (now - st.providersInitializedAt > CACHE_TTL_MS) ∧
    (now - st.providersInitializedAt ≤ CACHE_TTL_MS →
      (handleRequest env now completedAt st req).state = st ∧
      (handleRequest env now completedAt st req).refreshed = false) := by
  have hfm2 : (freshnessMiddleware env now completedAt st).2 =
      decide (now - st.providersInitializedAt > CACHE_TTL_MS) := by
    unfold freshnessMiddleware
    split <;> simp_all
  have hfm1 : now - st.providersInitializedAt ≤ CACHE_TTL_MS →
      (freshnessMiddleware env now completedAt st).1 = st := by
    intro hle
    unfold freshnessMiddleware
    rw [if_neg (not_lt.mpr hle)]
  constructor
  · unfold handleRequest
    cases hA : authCheck env req.authHeader <;> simp [hA, hfm2]
  · intro hle
    have hfalse : (freshnessMiddleware env now completedAt st).2 = false := by
      rw [hfm2, decide_eq_false_iff_not]
      exact not_lt.mpr hle
    unfold handleRequest
    cases hA : authCheck env req.authHeader <;> simp [hA, hfm1 hle, hfalse]

theorem c9_amended_witness :
    (handleRequest envGoogle 100 100 ⟨[], 0⟩ ⟨none, "google/x"⟩).refreshed =
      decide ((100 : Int) - (⟨[], 0⟩ : RegistryState).providersInitializedAt >
        CACHE_TTL_MS) ∧
    (handleRequest envGoogle 100 100 ⟨[], 0⟩ ⟨none, "google/x"⟩).state = ⟨[], 0⟩ ∧
    (handleRequest envGoogle 100 100 ⟨[], 0⟩ ⟨none, "google/x"⟩).refreshed = false :=
  ⟨(c9_amended_strict_ttl envGoogle 100 100 ⟨[], 0⟩ ⟨none, "google/x"⟩).1,
    (c9_amended_strict_ttl envGoogle 100 100 ⟨[], 0⟩ ⟨none, "google/x"⟩).2 (by decide)⟩

/-- C3 counterexample: request A evaluates the freshness check at time 400000
on a snapshot built at 0 (stale) and starts a refresh; while that refresh is
still in flight (`providersInitializedAt` is updated only after its awaits,
at line 129), request B evaluates the freshness check at time 400001: the
guard reads the still-unchanged timestamp and B starts a SECOND refresh — the
check has no in-flight flag, so overlapping requests do trigger redundant
concurrent refreshes, refuting the claim. -/
theorem c3_counterexample :
    (ensureFreshCheck 400001 (ensureFreshCheck 400000 ⟨0, 0⟩).1).2 = true ∧
    (ensureFreshCheck 400001 (ensureFreshCheck 400000 ⟨0, 0⟩).1).1.refreshesStarted =
      2 := by
  decide

/-- C3 (amended): the code has no in-flight guard, so a concurrent freshness
check that runs before the in-flight refresh writes `providersInitializedAt`
starts a second refresh; refresh triggers are suppressed only through the
timestamp: once a refresh has completed and set `providersInitializedAt`, any
freshness check within the TTL of that write starts no further refresh and
leaves the started-refresh count unchanged. (Callers that do see a stale
snapshot await the refresh they start rather than proceeding with the stale
snapshot.) -/
theorem c3_amended_timestamp_only_coalescing
    (s0 : SharedTimerState) (nowA tA nowB : Int)
    (h : nowB - tA ≤ CACHE_TTL_MS) :
    (ensureFreshCheck nowB (refreshComplete tA (ensureFreshCheck nowA s0).1)).2 =
      false ∧
    (ensureFreshCheck nowB
        (refreshComplete tA (ensureFreshCheck nowA s0).1)).1.refreshesStarted =
      (refreshComplete tA (ensureFreshCheck nowA s0).1).refreshesStarted := by
  generalize (ensureFreshCheck nowA s0).1 = s1
  have hng : ¬ (nowB - (refreshComplete tA s1).providersInitializedAt > CACHE_TTL_MS) := by
    rw [show (refreshComplete tA s1).providersInitializedAt = tA from rfl]
    exact not_lt.mpr h
  unfold ensureFreshCheck
  rw [if_neg hng]
  exact ⟨rfl, rfl⟩

theorem c3_amended_witness :
    (ensureFreshCheck 400005 (refreshComplete 400000 (ensureFreshCheck 400000
        ⟨0, 0⟩).1)).2 = false ∧
    (ensureFreshCheck 400005 (refreshComplete 400000 (ensureFreshCheck 400000
        ⟨0, 0⟩).1)).1.refreshesStarted =
      (refreshComplete 400000 (ensureFreshCheck 400000 ⟨0, 0⟩).1).refreshesStarted :=
  c3_amended_timestamp_only_coalescing ⟨0, 0⟩ 400000 400000 400005 (by decide)
